import Mathlib

/- Shallow embedding of the approval and allocation core of the
   Institutional Event Resource Management System (IERMS).

   Sources embedded:
   - src/vibeathon/src/services/approval-engine.ts (ApprovalEngine)
   - the allocation service (AllocationEngine: allocateEvent, allocateVenue,
     allocateResources, checkAllocationFeasibility and its two helpers)

   Modelling conventions:
   - Database tables become lists inside one DBState record; Prisma point
     lookups become List.find?, filtered queries become List.filter.
   - Timestamps and quantities are Int (JS numbers used integrally).
   - A Prisma interactive transaction commits when its callback returns and
     rolls back only when the callback throws; a thrown error is Except.error
     (the caller then sees the pre-call state), a normal return is Except.ok
     carrying the committed state.
   - Notification dispatch is not modelled: spec section 6 declares it
     fire-and-forget and never able to fail or roll back the transaction,
     and no claim observes it. -/

namespace IERMS

/- Enums from the Prisma client, as referenced by the source. -/

inductive Role
  | EVENT_COORDINATOR
  | HOD
  | DEAN
  | INSTITUTIONAL_HEAD
  | ADMIN_ITC
deriving DecidableEq

inductive ApprovalStage
  | DRAFT
  | SUBMITTED
  | HOD_APPROVED
  | DEAN_APPROVED
  | HEAD_APPROVED
  | APPROVED
  | REJECTED
  | MODIFICATION_REQUIRED
deriving DecidableEq

inductive EventStatus
  | DRAFT
  | SUBMITTED
  | APPROVED
  | REJECTED
  | COMPLETED
  | RUNNING
deriving DecidableEq

inductive ApprovalAction
  | SUBMITTED
  | APPROVED
  | REJECTED
  | MODIFICATION_REQUIRED
deriving DecidableEq

/- Rows of the store, with the fields the embedded services read or write. -/

structure Venue where
  id : String
  name : String
  type : String
  capacity : Int
  isActive : Bool
  maintenanceMode : Bool
deriving DecidableEq

structure Resource where
  id : String
  name : String
  totalQuantity : Int
deriving DecidableEq

structure VenueBooking where
  venueId : String
  eventId : String
  startTime : Int
  endTime : Int
  status : String
deriving DecidableEq

structure ResourceBooking where
  resourceId : String
  eventId : String
  quantity : Int
  startTime : Int
  endTime : Int
  status : String
deriving DecidableEq

structure ResourceRequest where
  id : String
  eventId : String
  resourceId : String
  quantityNeeded : Int
  isAllocated : Bool
  allocatedQuantity : Option Int
deriving DecidableEq

structure Event where
  id : String
  title : String
  participantCount : Int
  venueTypePreference : Option String
  scheduleStart : Int
  scheduleEnd : Int
  status : EventStatus
  approvalStage : ApprovalStage
  schoolId : String
  departmentId : String
  coordinatorId : String
  rejectionReason : Option String
deriving DecidableEq

structure User where
  id : String
  role : Role
  schoolId : Option String
  departmentId : Option String
  isActive : Bool
deriving DecidableEq

structure ApprovalStep where
  eventId : String
  approverId : String
  stage : ApprovalStage
  action : ApprovalAction
  comments : Option String
deriving DecidableEq

structure DBState where
  events : List Event
  users : List User
  venues : List Venue
  resources : List Resource
  requests : List ResourceRequest
  venueBookings : List VenueBooking
  resourceBookings : List ResourceBooking
  approvalSteps : List ApprovalStep
deriving DecidableEq

instance exceptDecEq {ε α : Type} [DecidableEq ε] [DecidableEq α] : DecidableEq (Except ε α) := fun x y =>
  match x, y with
  | .error a, .error b => if h : a = b then .isTrue (by simp [h]) else .isFalse (by simp [h])
  | .error _, .ok _ => .isFalse (by simp)
  | .ok _, .error _ => .isFalse (by simp)
  | .ok a, .ok b => if h : a = b then .isTrue (by simp [h]) else .isFalse (by simp [h])

/- ApprovalEngine.getNextApprovalStage: the fixed workflow mapping literal. -/
def getNextApprovalStage : ApprovalStage → ApprovalStage
  | .DRAFT => .SUBMITTED
  | .SUBMITTED => .HOD_APPROVED
  | .HOD_APPROVED => .DEAN_APPROVED
  | .DEAN_APPROVED => .HEAD_APPROVED
  | .HEAD_APPROVED => .APPROVED
  | .APPROVED => .APPROVED
  | .REJECTED => .REJECTED
  | .MODIFICATION_REQUIRED => .SUBMITTED

/- ApprovalEngine.validateApprovalPermission: the per-stage required-approver
   switch (SUBMITTED needs HOD with matching departmentId, HOD_APPROVED needs
   DEAN with matching schoolId, DEAN_APPROVED needs INSTITUTIONAL_HEAD,
   every other stage falls to the default false). -/
def validateApprovalPermission (approverRole : Role) (currentStage : ApprovalStage)
    (approverSchoolId approverDepartmentId : Option String)
    (eventSchoolId eventDepartmentId : String) : Bool :=
  match currentStage with
  | .SUBMITTED => decide (approverRole = Role.HOD ∧ approverDepartmentId = some eventDepartmentId)
  | .HOD_APPROVED => decide (approverRole = Role.DEAN ∧ approverSchoolId = some eventSchoolId)
  | .DEAN_APPROVED => decide (approverRole = Role.INSTITUTIONAL_HEAD)
  | _ => false

structure ApprovalResult where
  success : Bool
  nextStage : Option ApprovalStage
  error : Option String
deriving DecidableEq

structure ApprovalContext where
  approverId : String
  action : ApprovalAction
  comments : Option String
  eventId : String
deriving DecidableEq

/- AllocationEngine result shapes, from the exported TypeScript interfaces. -/

inductive ConflictType
  | venue_unavailable
  | resource_shortage
  | time_overlap
deriving DecidableEq

structure AllocationConflict where
  type : ConflictType
  conflictingEventIds : List String
  details : String
  suggestions : List String
deriving DecidableEq

structure AllocationResult where
  success : Bool
  venueId : Option String
  resourceAllocations : List (String × Int)
  conflicts : List AllocationConflict
  explanation : String
deriving DecidableEq

structure VenueAllocResult where
  success : Bool
  venueId : Option String
  conflicts : List AllocationConflict
  explanation : String
deriving DecidableEq

structure ResourceAllocResult where
  success : Bool
  allocations : List (String × Int)
  conflicts : List AllocationConflict
  explanation : String
deriving DecidableEq

/- The Prisma query for confirmed venue bookings of venue v whose interval
   strictly overlaps the event window (startTime < scheduleEnd AND
   endTime > scheduleStart). -/
def conflictingVenueBookings (s : DBState) (e : Event) (v : Venue) : List VenueBooking :=
  s.venueBookings.filter (fun b =>
    b.venueId == v.id && b.status == "confirmed" &&
    decide (b.startTime < e.scheduleEnd) && decide (b.endTime > e.scheduleStart))

/- The where-clause of the candidate query in allocateVenue: active,
   not in maintenance, capacity >= participantCount, and the spread filter
   on type when venueTypePreference is set. -/
def venueMatchesCriteria (e : Event) (v : Venue) : Bool :=
  v.isActive && !v.maintenanceMode && decide (e.participantCount ≤ v.capacity) &&
    (match e.venueTypePreference with
     | none => true
     | some t => v.type == t)

/- The orderBy of the candidate query: capacity ascending, then name
   ascending. -/
def venueOrder (a b : Venue) : Prop :=
  a.capacity < b.capacity ∨ (a.capacity = b.capacity ∧ a.name ≤ b.name)

instance : DecidableRel venueOrder := fun a b => by
  unfold venueOrder; infer_instance

instance : IsTotal Venue venueOrder := by
  constructor
  intro a b
  unfold venueOrder
  rcases lt_trichotomy a.capacity b.capacity with h | h | h
  · exact Or.inl (Or.inl h)
  · rcases le_total a.name b.name with hn | hn
    · exact Or.inl (Or.inr ⟨h, hn⟩)
    · exact Or.inr (Or.inr ⟨h.symm, hn⟩)
  · exact Or.inr (Or.inl h)

instance : IsTrans Venue venueOrder := by
  constructor
  intro a b c hab hbc
  unfold venueOrder at *
  rcases hab with hab | ⟨hab, hab2⟩
  · rcases hbc with hbc | ⟨hbc, _⟩
    · exact Or.inl (hab.trans hbc)
    · exact Or.inl (hbc ▸ hab)
  · rcases hbc with hbc | ⟨hbc, hbc2⟩
    · exact Or.inl (hab ▸ hbc)
    · exact Or.inr ⟨hab.trans hbc, hab2.trans hbc2⟩

/- Candidate venues as allocateVenue sees them: filtered then ordered. -/
def candidateVenues (s : DBState) (e : Event) : List Venue :=
  List.insertionSort venueOrder (s.venues.filter (venueMatchesCriteria e))

/- The first-fit walk of allocateVenue: the first candidate with zero
   conflicting confirmed bookings. -/
def firstFreeVenue (s : DBState) (e : Event) : List Venue → Option Venue
  | [] => none
  | v :: rest =>
    if conflictingVenueBookings s e v = [] then some v else firstFreeVenue s e rest

/- AllocationEngine.allocateVenue. On success the confirmed VenueBooking is
   created; the two failure shapes reproduce the source exactly. -/
def allocateVenue (s : DBState) (e : Event) : VenueAllocResult × DBState :=
  let cands := candidateVenues s e
  if cands.isEmpty then
    ({ success := false, venueId := none,
       conflicts := [{ type := ConflictType.venue_unavailable, conflictingEventIds := [],
                       details := "No suitable venues available",
                       suggestions := ["Consider reducing participant count", "Choose different time slot"] }],
       explanation := "No venues found with capacity >= " ++ toString e.participantCount }, s)
  else
    match firstFreeVenue s e cands with
    | some v =>
      ({ success := true, venueId := some v.id, conflicts := [],
         explanation := "Allocated venue: " ++ v.name },
       { s with venueBookings := s.venueBookings ++
           [{ venueId := v.id, eventId := e.id, startTime := e.scheduleStart,
              endTime := e.scheduleEnd, status := "confirmed" }] })
    | none =>
      ({ success := false, venueId := none,
         conflicts := [{ type := ConflictType.venue_unavailable,
                         conflictingEventIds :=
                           (cands.map (fun v => (conflictingVenueBookings s e v).map (fun b => b.eventId))).flatten,
                         details := "Time slot conflicts with existing bookings",
                         suggestions := ["Choose different time slot",
                                         "Consider smaller venue capacity requirement",
                                         "Contact conflicting events for rescheduling"] }],
         explanation := "All suitable venues are booked during requested time" }, s)

/- The Prisma query for confirmed resource bookings of a resource whose
   interval strictly overlaps the event window. -/
def overlappingResourceBookings (s : DBState) (e : Event) (rid : String) : List ResourceBooking :=
  s.resourceBookings.filter (fun b =>
    b.resourceId == rid && b.status == "confirmed" &&
    decide (b.startTime < e.scheduleEnd) && decide (b.endTime > e.scheduleStart))

/- The reduce((sum, booking) => sum + booking.quantity, 0) of the source. -/
def bookedQuantity (l : List ResourceBooking) : Int :=
  l.foldl (fun sum b => sum + b.quantity) 0

def shortageDetails (name : String) (needed available booked : Int) : String :=
  name ++ ": Need " ++ toString needed ++ ", only " ++ toString available ++
    " available (" ++ toString booked ++ " already booked)"

/- One iteration of the for-loop in AllocationEngine.allocateResources:
   either a confirmed ResourceBooking of exactly the requested quantity is
   created and the ResourceRequest row is marked allocated (Sum.inl with the
   new state), or a resource_shortage conflict is produced and the state is
   untouched (Sum.inr). A missing Resource row is a thrown error. -/
def allocateOneResource (s : DBState) (e : Event) (req : ResourceRequest) :
    Except String ((Sum (String × Int) AllocationConflict) × DBState) :=
  match s.resources.find? (fun r => r.id == req.resourceId) with
  | none => .error "Resource not found"
  | some resource =>
    let overlapping := overlappingResourceBookings s e resource.id
    let booked := bookedQuantity overlapping
    let available := resource.totalQuantity - booked
    if req.quantityNeeded ≤ available then
      .ok (Sum.inl (resource.id, req.quantityNeeded),
        { s with
          resourceBookings := s.resourceBookings ++
            [{ resourceId := resource.id, eventId := e.id, quantity := req.quantityNeeded,
               startTime := e.scheduleStart, endTime := e.scheduleEnd, status := "confirmed" }],
          requests := s.requests.map (fun q =>
            if q.id = req.id then
              { q with isAllocated := true, allocatedQuantity := some req.quantityNeeded }
            else q) })
    else
      .ok (Sum.inr
        { type := ConflictType.resource_shortage,
          conflictingEventIds := overlapping.map (fun b => b.eventId),
          details := shortageDetails resource.name req.quantityNeeded available booked,
          suggestions := ["Reduce quantity requirement", "Choose different time slot",
                          "Find alternative resources"] }, s)

/- The full for-loop: every request is evaluated; allocations and conflicts
   are accumulated in request order. -/
def allocateResourcesGo (e : Event) :
    List ResourceRequest → DBState →
      Except String (List (String × Int) × List AllocationConflict × DBState)
  | [], s => .ok ([], [], s)
  | req :: rest, s =>
    match allocateOneResource s e req with
    | .error m => .error m
    | .ok (Sum.inl alloc, s1) =>
      match allocateResourcesGo e rest s1 with
      | .error m => .error m
      | .ok (allocs, confls, s2) => .ok (alloc :: allocs, confls, s2)
    | .ok (Sum.inr c, s1) =>
      match allocateResourcesGo e rest s1 with
      | .error m => .error m
      | .ok (allocs, confls, s2) => .ok (allocs, c :: confls, s2)

/- AllocationEngine.allocateResources: success only when the conflict list
   is empty after the whole pass. -/
def allocateResources (reqs : List ResourceRequest) (e : Event) (s : DBState) :
    Except String (ResourceAllocResult × DBState) :=
  match allocateResourcesGo e reqs s with
  | .error m => .error m
  | .ok (allocs, confls, s2) =>
    if confls.length > 0 then
      .ok ({ success := false, allocations := [], conflicts := confls,
             explanation := "Failed to allocate " ++ toString confls.length ++ " resources" }, s2)
    else
      .ok ({ success := true, allocations := allocs, conflicts := [],
             explanation := "Successfully allocated " ++ toString allocs.length ++ " resources" }, s2)

/- The include of resourceRequests when the event row is loaded. -/
def eventRequests (s : DBState) (eventId : String) : List ResourceRequest :=
  s.requests.filter (fun q => q.eventId == eventId)

/- AllocationEngine.allocateEvent. The interactive transaction commits on
   every Except.ok, including the two structured-failure returns; only the
   thrown errors (missing event, wrong stage, missing resource) roll back. -/
def allocateEvent (s : DBState) (eventId : String) : Except String (AllocationResult × DBState) :=
  match s.events.find? (fun ev => ev.id == eventId) with
  | none => .error "Event not found"
  | some event =>
    if event.approvalStage ≠ ApprovalStage.HEAD_APPROVED then
      .error "Event not ready for allocation"
    else
      let reqs := eventRequests s eventId
      let venuePair := allocateVenue s event
      if venuePair.1.success = false then
        .ok ({ success := false, venueId := none, resourceAllocations := [],
               conflicts := venuePair.1.conflicts,
               explanation := "Venue allocation failed: " ++ venuePair.1.explanation }, venuePair.2)
      else
        match allocateResources reqs event venuePair.2 with
        | .error m => .error m
        | .ok (resourceResult, s2) =>
          if resourceResult.success = false then
            .ok ({ success := false, venueId := none, resourceAllocations := [],
                   conflicts := resourceResult.conflicts,
                   explanation := "Resource allocation failed: " ++ resourceResult.explanation }, s2)
          else
            .ok ({ success := true, venueId := venuePair.1.venueId,
                   resourceAllocations := resourceResult.allocations,
                   conflicts := [], explanation := "Event successfully allocated" },
              { s2 with
                events := s2.events.map (fun ev =>
                  if ev.id = eventId then
                    { ev with status := EventStatus.APPROVED, approvalStage := ApprovalStage.APPROVED }
                  else ev),
                approvalSteps := s2.approvalSteps ++
                  [{ eventId := eventId, approverId := "system", stage := ApprovalStage.APPROVED,
                     action := ApprovalAction.APPROVED,
                     comments := some "Automatic allocation completed successfully" }] })

/- The APPROVED arm of the switch in ApprovalEngine.processApproval: compute
   the next stage; when it is the terminal APPROVED stage run the Allocation
   Engine, downgrading on failure (stage reverted, status SUBMITTED, action
   relabelled MODIFICATION_REQUIRED, explanation in comments). -/
def approvedBranch (s : DBState) (event : Event) (comments : Option String) :
    Except String ((ApprovalStage × EventStatus × ApprovalAction × Option String) × DBState) :=
  let nextStage := getNextApprovalStage event.approvalStage
  if nextStage = ApprovalStage.APPROVED then
    match allocateEvent s event.id with
    | .error m => .error m
    | .ok (allocationResult, s1) =>
      if allocationResult.success then
        .ok ((nextStage, EventStatus.APPROVED, ApprovalAction.APPROVED, comments), s1)
      else
        .ok ((event.approvalStage, EventStatus.SUBMITTED, ApprovalAction.MODIFICATION_REQUIRED,
              some ("Allocation failed: " ++ allocationResult.explanation)), s1)
  else
    .ok ((nextStage, event.status, ApprovalAction.APPROVED, comments), s)

/- The event update plus the ApprovalStep insert at the end of
   processApproval (rejectionReason is set only on a REJECTED action). -/
def commitTransition (s : DBState) (eventId approverId : String) (nextStage : ApprovalStage)
    (eventStatus : EventStatus) (action : ApprovalAction) (comments : Option String) :
    ApprovalResult × DBState :=
  ({ success := true, nextStage := some nextStage, error := none },
   { s with
     events := s.events.map (fun ev =>
       if ev.id = eventId then
         { ev with approvalStage := nextStage, status := eventStatus,
                   rejectionReason := if action = ApprovalAction.REJECTED then comments else none }
       else ev),
     approvalSteps := s.approvalSteps ++
       [{ eventId := eventId, approverId := approverId, stage := nextStage,
          action := action, comments := comments }] })

/- ApprovalEngine.processApproval: load event and approver (throw NotFound
   when missing), validate permission (structured failure, no mutation),
   then the action switch, the event update and the step insert. -/
def processApproval (s : DBState) (ctx : ApprovalContext) : Except String (ApprovalResult × DBState) :=
  match s.events.find? (fun ev => ev.id == ctx.eventId) with
  | none => .error "Event not found"
  | some event =>
    match s.users.find? (fun u => u.id == ctx.approverId) with
    | none => .error "Approver not found"
    | some approver =>
      if validateApprovalPermission approver.role event.approvalStage approver.schoolId
          approver.departmentId event.schoolId event.departmentId = false then
        .ok ({ success := false, nextStage := none,
               error := some "Insufficient permissions to approve this event" }, s)
      else
        match ctx.action with
        | ApprovalAction.APPROVED =>
          match approvedBranch s event ctx.comments with
          | .error m => .error m
          | .ok ((ns, st, act, cm), s1) =>
            .ok (commitTransition s1 ctx.eventId ctx.approverId ns st act cm)
        | ApprovalAction.REJECTED =>
          .ok (commitTransition s ctx.eventId ctx.approverId ApprovalStage.REJECTED
                EventStatus.REJECTED ApprovalAction.REJECTED ctx.comments)
        | ApprovalAction.MODIFICATION_REQUIRED =>
          .ok (commitTransition s ctx.eventId ctx.approverId ApprovalStage.MODIFICATION_REQUIRED
                EventStatus.SUBMITTED ApprovalAction.MODIFICATION_REQUIRED ctx.comments)
        | ApprovalAction.SUBMITTED =>
          .ok ({ success := false, nextStage := none, error := some "Invalid approval action" }, s)

/- AllocationEngine.checkVenueAvailability: same capacity/active/maintenance
   filter but no venueTypePreference condition and no ordering; success on
   the first candidate free of overlapping confirmed bookings. -/
def checkVenueAvailabilitySuccess (s : DBState) (e : Event) : Bool × List AllocationConflict :=
  let cands := s.venues.filter (fun v =>
    v.isActive && !v.maintenanceMode && decide (e.participantCount ≤ v.capacity))
  if cands.isEmpty then
    (false, [{ type := ConflictType.venue_unavailable, conflictingEventIds := [],
               details := "No suitable venues available", suggestions := [] }])
  else
    match firstFreeVenue s e cands with
    | some _ => (true, [])
    | none =>
      (false, [{ type := ConflictType.venue_unavailable, conflictingEventIds := [],
                 details := "All suitable venues are booked", suggestions := [] }])

/- The loop of AllocationEngine.checkResourceAvailability, producing a
   shortage conflict per request whose derived availability is short. -/
def checkResourceGo (s : DBState) (e : Event) :
    List ResourceRequest → Except String (List AllocationConflict)
  | [] => .ok []
  | req :: rest =>
    match s.resources.find? (fun r => r.id == req.resourceId) with
    | none => .error "Resource not found"
    | some resource =>
      let overlapping := overlappingResourceBookings s e req.resourceId
      let booked := bookedQuantity overlapping
      let available := resource.totalQuantity - booked
      match checkResourceGo s e rest with
      | .error m => .error m
      | .ok confls =>
        if available < req.quantityNeeded then
          .ok ({ type := ConflictType.resource_shortage,
                 conflictingEventIds := overlapping.map (fun b => b.eventId),
                 details := resource.name ++ ": Need " ++ toString req.quantityNeeded ++
                   ", only " ++ toString available ++ " available",
                 suggestions := [] } :: confls)
        else
          .ok confls

def checkResourceAvailability (s : DBState) (e : Event) :
    Except String (Bool × List AllocationConflict) :=
  match checkResourceGo s e (eventRequests s e.id) with
  | .error m => .error m
  | .ok confls => .ok (confls.isEmpty, confls)

/- AllocationEngine.checkAllocationFeasibility: loads the event, runs the two
   read-only checks and combines them; the store is returned untouched. -/
def checkAllocationFeasibility (s : DBState) (eventId : String) :
    Except String (AllocationResult × DBState) :=
  match s.events.find? (fun ev => ev.id == eventId) with
  | none => .error "Event not found"
  | some event =>
    let venueCheck := checkVenueAvailabilitySuccess s event
    match checkResourceAvailability s event with
    | .error m => .error m
    | .ok resourceCheck =>
      .ok ({ success := venueCheck.1 && resourceCheck.1,
             venueId := none, resourceAllocations := [],
             conflicts := venueCheck.2 ++ resourceCheck.2,
             explanation := "Feasibility check: " ++
               (if venueCheck.1 then "Venue OK" else "Venue issues") ++ ", " ++
               (if resourceCheck.1 then "Resources OK" else "Resource issues") }, s)

/- Spec-side declarative predicates (for the refinement-style statements):
   written from the words of the spec, to be compared with the embedded code. -/

/- Spec 4.2 step 1: candidate set = active, non-maintenance venues with
   capacity at least the participant count, filtered by type preference when
   the event states one. -/
def isCandidate (s : DBState) (e : Event) (v : Venue) : Prop :=
  v ∈ s.venues ∧ v.isActive = true ∧ v.maintenanceMode = false ∧
    e.participantCount ≤ v.capacity ∧
    (∀ t, e.venueTypePreference = some t → v.type = t)

/- Spec 4.2 step 3: zero confirmed bookings strictly overlapping the window. -/
def venueFree (s : DBState) (e : Event) (v : Venue) : Prop :=
  conflictingVenueBookings s e v = []

/- Spec 4.2 resource steps 1-3: the derived availability of the requested
   resource covers the requested quantity. -/
def resourceAvailableFor (s : DBState) (e : Event) (req : ResourceRequest) : Prop :=
  ∀ res, s.resources.find? (fun r => r.id == req.resourceId) = some res →
    req.quantityNeeded ≤ res.totalQuantity - bookedQuantity (overlappingResourceBookings s e res.id)

/- Spec 3 (Resource): available quantity is totalQuantity minus the sum of
   quantities of confirmed bookings overlapping the window. -/
def windowBookedSum (s : DBState) (e : Event) (rid : String) : Int :=
  ((overlappingResourceBookings s e rid).map (fun b => b.quantity)).sum

/- Concrete fixtures used in closed witness and counterexample theorems. -/

def venueHall100 : Venue :=
  { id := "v100", name := "Main Hall", type := "hall", capacity := 100,
    isActive := true, maintenanceMode := false }

def venueSeminar60 : Venue :=
  { id := "v60", name := "Seminar Hall", type := "hall", capacity := 60,
    isActive := true, maintenanceMode := false }

def scA_event : Event :=
  { id := "eA", title := "Fest", participantCount := 50, venueTypePreference := none,
    scheduleStart := 10, scheduleEnd := 12, status := EventStatus.SUBMITTED,
    approvalStage := ApprovalStage.HEAD_APPROVED, schoolId := "s1", departmentId := "d1",
    coordinatorId := "u1", rejectionReason := none }

def scA_state : DBState :=
  { events := [scA_event], users := [], venues := [venueHall100, venueSeminar60],
    resources := [], requests := [], venueBookings := [], resourceBookings := [],
    approvalSteps := [] }

def c1_event : Event :=
  { id := "e1", title := "Symposium", participantCount := 10, venueTypePreference := none,
    scheduleStart := 0, scheduleEnd := 10, status := EventStatus.SUBMITTED,
    approvalStage := ApprovalStage.HEAD_APPROVED, schoolId := "s1", departmentId := "d1",
    coordinatorId := "u1", rejectionReason := none }

def c1_state : DBState :=
  { events := [c1_event], users := [], venues := [venueHall100],
    resources := [{ id := "rA", name := "Chairs", totalQuantity := 5 },
                  { id := "rB", name := "Mics", totalQuantity := 0 }],
    requests := [{ id := "q1", eventId := "e1", resourceId := "rA", quantityNeeded := 5,
                   isAllocated := false, allocatedQuantity := none },
                 { id := "q2", eventId := "e1", resourceId := "rB", quantityNeeded := 3,
                   isAllocated := false, allocatedQuantity := none }],
    venueBookings := [], resourceBookings := [], approvalSteps := [] }

def c2_event : Event :=
  { id := "e2", title := "Conference", participantCount := 10, venueTypePreference := none,
    scheduleStart := 0, scheduleEnd := 10, status := EventStatus.SUBMITTED,
    approvalStage := ApprovalStage.DEAN_APPROVED, schoolId := "s1", departmentId := "d1",
    coordinatorId := "u1", rejectionReason := none }

def c2_state : DBState :=
  { events := [c2_event],
    users := [{ id := "h1", role := Role.INSTITUTIONAL_HEAD, schoolId := none,
                departmentId := none, isActive := true }],
    venues := [venueHall100], resources := [], requests := [], venueBookings := [],
    resourceBookings := [], approvalSteps := [] }

def c2_ctx : ApprovalContext :=
  { approverId := "h1", action := ApprovalAction.APPROVED, comments := none, eventId := "e2" }

def c3_event : Event :=
  { id := "e3", title := "Workshop", participantCount := 10, venueTypePreference := none,
    scheduleStart := 0, scheduleEnd := 10, status := EventStatus.SUBMITTED,
    approvalStage := ApprovalStage.HEAD_APPROVED, schoolId := "s1", departmentId := "d1",
    coordinatorId := "u1", rejectionReason := none }

def c3_state : DBState :=
  { events := [c3_event], users := [], venues := [], resources := [], requests := [],
    venueBookings := [], resourceBookings := [], approvalSteps := [] }

def c3_alloc : AllocationResult :=
  { success := false, venueId := none, resourceAllocations := [],
    conflicts := [{ type := ConflictType.venue_unavailable, conflictingEventIds := [],
                    details := "No suitable venues available",
                    suggestions := ["Consider reducing participant count",
                                    "Choose different time slot"] }],
    explanation := "Venue allocation failed: No venues found with capacity >= 10" }

def c5_event : Event :=
  { id := "e5", title := "Seminar", participantCount := 10, venueTypePreference := none,
    scheduleStart := 100, scheduleEnd := 200, status := EventStatus.SUBMITTED,
    approvalStage := ApprovalStage.HEAD_APPROVED, schoolId := "s1", departmentId := "d1",
    coordinatorId := "u1", rejectionReason := none }

def c5_resource : Resource := { id := "rC", name := "Speakers", totalQuantity := 20 }

def c5_state : DBState :=
  { events := [c5_event], users := [], venues := [], resources := [c5_resource],
    requests := [], venueBookings := [],
    resourceBookings := [{ resourceId := "rC", eventId := "eOther", quantity := 15,
                           startTime := 50, endTime := 150, status := "confirmed" }],
    approvalSteps := [] }

def c5_req : ResourceRequest :=
  { id := "q5", eventId := "e5", resourceId := "rC", quantityNeeded := 10,
    isAllocated := false, allocatedQuantity := none }

def c6_event : Event :=
  { id := "e6", title := "Expo", participantCount := 10, venueTypePreference := none,
    scheduleStart := 0, scheduleEnd := 10, status := EventStatus.SUBMITTED,
    approvalStage := ApprovalStage.HEAD_APPROVED, schoolId := "s1", departmentId := "d1",
    coordinatorId := "u1", rejectionReason := none }

def c6_state : DBState :=
  { events := [c6_event], users := [], venues := [],
    resources := [{ id := "rX", name := "Projectors", totalQuantity := 0 },
                  { id := "rY", name := "Stalls", totalQuantity := 1 }],
    requests := [], venueBookings := [], resourceBookings := [], approvalSteps := [] }

def c6_reqs : List ResourceRequest :=
  [{ id := "q61", eventId := "e6", resourceId := "rX", quantityNeeded := 2,
     isAllocated := false, allocatedQuantity := none },
   { id := "q62", eventId := "e6", resourceId := "rY", quantityNeeded := 3,
     isAllocated := false, allocatedQuantity := none }]

def c7_event : Event :=
  { id := "e7", title := "Lab Session", participantCount := 50,
    venueTypePreference := some "lab", scheduleStart := 0, scheduleEnd := 10,
    status := EventStatus.SUBMITTED, approvalStage := ApprovalStage.HEAD_APPROVED,
    schoolId := "s1", departmentId := "d1", coordinatorId := "u1", rejectionReason := none }

def c7_state : DBState :=
  { events := [c7_event], users := [], venues := [venueHall100], resources := [],
    requests := [], venueBookings := [], resourceBookings := [], approvalSteps := [] }

def c7w_event : Event :=
  { id := "e7w", title := "Open Talk", participantCount := 50, venueTypePreference := none,
    scheduleStart := 0, scheduleEnd := 10, status := EventStatus.SUBMITTED,
    approvalStage := ApprovalStage.HEAD_APPROVED, schoolId := "s1", departmentId := "d1",
    coordinatorId := "u1", rejectionReason := none }

def c7w_state : DBState :=
  { events := [c7w_event], users := [], venues := [venueHall100], resources := [],
    requests := [], venueBookings := [], resourceBookings := [], approvalSteps := [] }

def c8_event : Event :=
  { id := "e8", title := "Meetup", participantCount := 10, venueTypePreference := none,
    scheduleStart := 0, scheduleEnd := 10, status := EventStatus.SUBMITTED,
    approvalStage := ApprovalStage.SUBMITTED, schoolId := "s1", departmentId := "d1",
    coordinatorId := "u1", rejectionReason := none }

def c8_state : DBState :=
  { events := [c8_event],
    users := [{ id := "dean1", role := Role.DEAN, schoolId := some "s1",
                departmentId := none, isActive := true }],
    venues := [], resources := [], requests := [], venueBookings := [],
    resourceBookings := [], approvalSteps := [] }

def c8_ctx : ApprovalContext :=
  { approverId := "dean1", action := ApprovalAction.APPROVED, comments := none, eventId := "e8" }

def c10_event : Event :=
  { id := "e10", title := "Gala", participantCount := 10, venueTypePreference := none,
    scheduleStart := 0, scheduleEnd := 10, status := EventStatus.SUBMITTED,
    approvalStage := ApprovalStage.HEAD_APPROVED, schoolId := "s1", departmentId := "d1",
    coordinatorId := "u1", rejectionReason := none }

def c10_state : DBState :=
  { events := [c10_event],
    users := [{ id := "h10", role := Role.INSTITUTIONAL_HEAD, schoolId := none,
                departmentId := none, isActive := true }],
    venues := [venueHall100], resources := [], requests := [], venueBookings := [],
    resourceBookings := [], approvalSteps := [] }

def c10_ctx : ApprovalContext :=
  { approverId := "h10", action := ApprovalAction.APPROVED, comments := none, eventId := "e10" }

/- Helper lemmas about the embedded operations. -/

theorem validateApprovalPermission_eq_true_iff (role : Role) (stage : ApprovalStage)
    (aSch aDep : Option String) (eSch eDep : String) :
    validateApprovalPermission role stage aSch aDep eSch eDep = true ↔
      ((stage = .SUBMITTED ∧ role = .HOD ∧ aDep = some eDep) ∨
       (stage = .HOD_APPROVED ∧ role = .DEAN ∧ aSch = some eSch) ∨
       (stage = .DEAN_APPROVED ∧ role = .INSTITUTIONAL_HEAD)) := by
  cases stage <;> simp [validateApprovalPermission]

theorem bookedQuantity_eq_sum (l : List ResourceBooking) :
    bookedQuantity l = (l.map (fun b => b.quantity)).sum := by
  unfold bookedQuantity
  suffices h : ∀ init : Int, l.foldl (fun sum b => sum + b.quantity) init =
      init + (l.map (fun b => b.quantity)).sum by
    simpa using h 0
  induction l with
  | nil => intro init; simp
  | cons b rest ih => intro init; simp [ih, add_assoc]

theorem venueOrder_refl (v : Venue) : venueOrder v v :=
  Or.inr ⟨rfl, le_refl v.name⟩

theorem firstFreeVenue_eq_some {s : DBState} {e : Event} :
    ∀ {l : List Venue} {v : Venue}, firstFreeVenue s e l = some v →
      v ∈ l ∧ venueFree s e v := by
  intro l
  induction l with
  | nil => intro v h; simp [firstFreeVenue] at h
  | cons x rest ih =>
    intro v h
    unfold firstFreeVenue at h
    by_cases hx : conflictingVenueBookings s e x = []
    · rw [if_pos hx] at h
      cases h
      exact ⟨List.mem_cons_self x rest, hx⟩
    · rw [if_neg hx] at h
      obtain ⟨hmem, hfree⟩ := ih h
      exact ⟨List.mem_cons_of_mem x hmem, hfree⟩

theorem firstFreeVenue_eq_none {s : DBState} {e : Event} :
    ∀ {l : List Venue}, firstFreeVenue s e l = none ↔ ∀ v ∈ l, ¬ venueFree s e v := by
  intro l
  induction l with
  | nil => simp [firstFreeVenue]
  | cons x rest ih =>
    unfold firstFreeVenue
    by_cases hx : conflictingVenueBookings s e x = []
    · rw [if_pos hx]
      simp only [venueFree] at *
      constructor
      · intro h; cases h
      · intro h; exact absurd hx (h x (List.mem_cons_self x rest))
    · rw [if_neg hx]
      constructor
      · intro h v hv
        rcases List.mem_cons.mp hv with rfl | hv
        · exact hx
        · exact (ih.mp h) v hv
      · intro h
        exact ih.mpr (fun v hv => h v (List.mem_cons_of_mem x hv))

theorem firstFreeVenue_min {s : DBState} {e : Event} :
    ∀ {l : List Venue} {v : Venue}, l.Sorted venueOrder →
      firstFreeVenue s e l = some v →
      ∀ w ∈ l, venueFree s e w → venueOrder v w := by
  intro l
  induction l with
  | nil => intro v _ h; simp [firstFreeVenue] at h
  | cons x rest ih =>
    intro v hsort h w hw hwfree
    unfold firstFreeVenue at h
    by_cases hx : conflictingVenueBookings s e x = []
    · rw [if_pos hx] at h
      cases h
      rcases List.mem_cons.mp hw with rfl | hw
      · exact venueOrder_refl w
      · exact (List.pairwise_cons.mp hsort).1 w hw
    · rw [if_neg hx] at h
      rcases List.mem_cons.mp hw with rfl | hw
      · exact absurd hwfree hx
      · exact ih (List.pairwise_cons.mp hsort).2 h w hw hwfree

theorem mem_candidateVenues {s : DBState} {e : Event} {v : Venue} :
    v ∈ candidateVenues s e ↔ isCandidate s e v := by
  unfold candidateVenues isCandidate
  rw [List.mem_insertionSort, List.mem_filter]
  unfold venueMatchesCriteria
  cases hp : e.venueTypePreference with
  | none => simp [hp, and_assoc]
  | some t => simp [hp, beq_iff_eq, and_assoc]

theorem allocateVenue_success_iff (s : DBState) (e : Event) :
    (allocateVenue s e).1.success = true ↔ ∃ v, isCandidate s e v ∧ venueFree s e v := by
  unfold allocateVenue
  by_cases hempty : (candidateVenues s e).isEmpty
  · rw [if_pos hempty]
    simp only [List.isEmpty_iff] at hempty
    simp only [Bool.false_eq_true, false_iff]
    rintro ⟨v, hv, _⟩
    have : v ∈ candidateVenues s e := mem_candidateVenues.mpr hv
    rw [hempty] at this
    exact absurd this (List.not_mem_nil v)
  · rw [if_neg hempty]
    cases hfind : firstFreeVenue s e (candidateVenues s e) with
    | some v =>
      simp only [true_iff]
      obtain ⟨hmem, hfree⟩ := firstFreeVenue_eq_some hfind
      exact ⟨v, mem_candidateVenues.mp hmem, hfree⟩
    | none =>
      simp only [Bool.false_eq_true, false_iff]
      rintro ⟨v, hv, hfree⟩
      exact absurd hfree
        (firstFreeVenue_eq_none.mp hfind v (mem_candidateVenues.mpr hv))

theorem allocateVenue_venueId_some (s : DBState) (e : Event) (vid : String)
    (h : (allocateVenue s e).1.venueId = some vid) :
    ∃ v : Venue, v.id = vid ∧ isCandidate s e v ∧ venueFree s e v ∧
      (∀ w, isCandidate s e w → venueFree s e w → venueOrder v w) ∧
      (allocateVenue s e).1.success = true ∧
      (allocateVenue s e).2.venueBookings = s.venueBookings ++
        [{ venueId := vid, eventId := e.id, startTime := e.scheduleStart,
           endTime := e.scheduleEnd, status := "confirmed" }] := by
  unfold allocateVenue at *
  by_cases hempty : (candidateVenues s e).isEmpty
  · rw [if_pos hempty] at h
    exact Option.noConfusion h
  · rw [if_neg hempty] at h ⊢
    cases hfind : firstFreeVenue s e (candidateVenues s e) with
    | some v =>
      rw [hfind] at h
      simp only [Option.some.injEq] at h
      subst h
      obtain ⟨hmem, hfree⟩ := firstFreeVenue_eq_some hfind
      refine ⟨v, rfl, mem_candidateVenues.mp hmem, hfree, ?_, rfl, rfl⟩
      intro w hw hwfree
      exact firstFreeVenue_min
        (List.sorted_insertionSort venueOrder (s.venues.filter (venueMatchesCriteria e)))
        hfind w (mem_candidateVenues.mpr hw) hwfree
    | none =>
      rw [hfind] at h
      exact Option.noConfusion h

theorem allocateVenue_state_fields (s : DBState) (e : Event) :
    (allocateVenue s e).2.events = s.events ∧
    (allocateVenue s e).2.users = s.users ∧
    (allocateVenue s e).2.venues = s.venues ∧
    (allocateVenue s e).2.resources = s.resources ∧
    (allocateVenue s e).2.requests = s.requests ∧
    (allocateVenue s e).2.resourceBookings = s.resourceBookings ∧
    (allocateVenue s e).2.approvalSteps = s.approvalSteps := by
  unfold allocateVenue
  by_cases hempty : (candidateVenues s e).isEmpty
  · rw [if_pos hempty]; exact ⟨rfl, rfl, rfl, rfl, rfl, rfl, rfl⟩
  · rw [if_neg hempty]
    cases hfind : firstFreeVenue s e (candidateVenues s e) <;>
      exact ⟨rfl, rfl, rfl, rfl, rfl, rfl, rfl⟩

theorem allocateVenue_failure_state (s : DBState) (e : Event)
    (h : (allocateVenue s e).1.success = false) : (allocateVenue s e).2 = s := by
  unfold allocateVenue at *
  by_cases hempty : (candidateVenues s e).isEmpty
  · rw [if_pos hempty]
  · rw [if_neg hempty] at h ⊢
    cases hfind : firstFreeVenue s e (candidateVenues s e) with
    | some v =>
      rw [hfind] at h
      exact Bool.noConfusion h
    | none => rfl

/- Bookings appended for a different resource are invisible to the
   overlapping-bookings query of a given resource. -/
theorem overlappingResourceBookings_append_ne (s : DBState) (e : Event) (rid : String)
    (b : ResourceBooking) (h : b.resourceId ≠ rid) :
    ∀ s' : DBState, s'.resourceBookings = s.resourceBookings ++ [b] →
      overlappingResourceBookings s' e rid = overlappingResourceBookings s e rid := by
  intro s' hs'
  unfold overlappingResourceBookings
  rw [hs', List.filter_append]
  have hb : (b.resourceId == rid) = false := by
    simp [beq_eq_false_iff_ne, h]
  simp [List.filter, hb]

theorem allocateOneResource_ok (s : DBState) (e : Event) (req : ResourceRequest)
    (resource : Resource)
    (hres : s.resources.find? (fun r => r.id == req.resourceId) = some resource) :
    (req.quantityNeeded ≤ resource.totalQuantity -
        bookedQuantity (overlappingResourceBookings s e resource.id) →
      allocateOneResource s e req = .ok (Sum.inl (resource.id, req.quantityNeeded),
        { s with
          resourceBookings := s.resourceBookings ++
            [{ resourceId := resource.id, eventId := e.id, quantity := req.quantityNeeded,
               startTime := e.scheduleStart, endTime := e.scheduleEnd, status := "confirmed" }],
          requests := s.requests.map (fun q =>
            if q.id = req.id then
              { q with isAllocated := true, allocatedQuantity := some req.quantityNeeded }
            else q) })) ∧
    (resource.totalQuantity - bookedQuantity (overlappingResourceBookings s e resource.id) <
        req.quantityNeeded →
      allocateOneResource s e req = .ok (Sum.inr
        { type := ConflictType.resource_shortage,
          conflictingEventIds := (overlappingResourceBookings s e resource.id).map (fun b => b.eventId),
          details := shortageDetails resource.name req.quantityNeeded
            (resource.totalQuantity - bookedQuantity (overlappingResourceBookings s e resource.id))
            (bookedQuantity (overlappingResourceBookings s e resource.id)),
          suggestions := ["Reduce quantity requirement", "Choose different time slot",
                          "Find alternative resources"] }, s)) := by
  constructor
  · intro hle
    unfold allocateOneResource
    rw [hres]
    dsimp only
    rw [if_pos hle]
  · intro hlt
    unfold allocateOneResource
    rw [hres]
    dsimp only
    rw [if_neg (not_le.mpr hlt)]

theorem allocateOneResource_fields (s : DBState) (e : Event) (req : ResourceRequest)
    (x : Sum (String × Int) AllocationConflict) (s1 : DBState)
    (h : allocateOneResource s e req = .ok (x, s1)) :
    s1.resources = s.resources ∧ s1.events = s.events ∧ s1.venues = s.venues ∧
    s1.venueBookings = s.venueBookings ∧ s1.users = s.users ∧
    s1.approvalSteps = s.approvalSteps := by
  unfold allocateOneResource at h
  cases hfind : s.resources.find? (fun r => r.id == req.resourceId) with
  | none =>
    rw [hfind] at h
    exact Except.noConfusion h
  | some resource =>
    rw [hfind] at h
    dsimp only at h
    by_cases hle : req.quantityNeeded ≤
        resource.totalQuantity - bookedQuantity (overlappingResourceBookings s e resource.id)
    · rw [if_pos hle] at h
      cases h
      exact ⟨rfl, rfl, rfl, rfl, rfl, rfl⟩
    · rw [if_neg hle] at h
      cases h
      exact ⟨rfl, rfl, rfl, rfl, rfl, rfl⟩

theorem allocateResourcesGo_ok (e : Event) :
    ∀ (reqs : List ResourceRequest) (s : DBState),
      (∀ req ∈ reqs, (s.resources.find? (fun r => r.id == req.resourceId)).isSome = true) →
      ∃ allocs confls s2, allocateResourcesGo e reqs s = .ok (allocs, confls, s2) ∧
        allocs.length + confls.length = reqs.length ∧
        (∀ c ∈ confls, c.type = ConflictType.resource_shortage) ∧
        s2.resources = s.resources ∧ s2.events = s.events ∧ s2.venues = s.venues ∧
        s2.venueBookings = s.venueBookings ∧ s2.users = s.users ∧
        s2.approvalSteps = s.approvalSteps := by
  intro reqs
  induction reqs with
  | nil =>
    intro s _
    exact ⟨[], [], s, rfl, rfl, by simp, rfl, rfl, rfl, rfl, rfl, rfl⟩
  | cons req rest ih =>
    intro s hfinds
    obtain ⟨resource, hres⟩ := Option.isSome_iff_exists.mp
      (hfinds req (List.mem_cons_self req rest))
    by_cases hle : req.quantityNeeded ≤
        resource.totalQuantity - bookedQuantity (overlappingResourceBookings s e resource.id)
    · have hstep := (allocateOneResource_ok s e req resource hres).1 hle
      set s1 : DBState :=
        { s with
          resourceBookings := s.resourceBookings ++
            [{ resourceId := resource.id, eventId := e.id, quantity := req.quantityNeeded,
               startTime := e.scheduleStart, endTime := e.scheduleEnd, status := "confirmed" }],
          requests := s.requests.map (fun q =>
            if q.id = req.id then
              { q with isAllocated := true, allocatedQuantity := some req.quantityNeeded }
            else q) } with hs1
      have hfinds1 : ∀ r ∈ rest, (s1.resources.find? (fun x => x.id == r.resourceId)).isSome = true := by
        intro r hr
        exact hfinds r (List.mem_cons_of_mem req hr)
      obtain ⟨allocs, confls, s2, hgo, hlen, htypes, hf1, hf2, hf3, hf4, hf5, hf6⟩ := ih s1 hfinds1
      refine ⟨(resource.id, req.quantityNeeded) :: allocs, confls, s2, ?_, ?_, htypes,
        hf1, hf2, hf3, hf4, hf5, hf6⟩
      · unfold allocateResourcesGo
        rw [hstep]
        dsimp only
        rw [hgo]
      · simp [List.length_cons, ← hlen]
        omega
    · have hstep := (allocateOneResource_ok s e req resource hres).2 (not_le.mp hle)
      have hfinds1 : ∀ r ∈ rest, (s.resources.find? (fun x => x.id == r.resourceId)).isSome = true := by
        intro r hr
        exact hfinds r (List.mem_cons_of_mem req hr)
      obtain ⟨allocs, confls, s2, hgo, hlen, htypes, hf1, hf2, hf3, hf4, hf5, hf6⟩ := ih s hfinds1
      refine ⟨allocs,
        { type := ConflictType.resource_shortage,
          conflictingEventIds := (overlappingResourceBookings s e resource.id).map (fun b => b.eventId),
          details := shortageDetails resource.name req.quantityNeeded
            (resource.totalQuantity - bookedQuantity (overlappingResourceBookings s e resource.id))
            (bookedQuantity (overlappingResourceBookings s e resource.id)),
          suggestions := ["Reduce quantity requirement", "Choose different time slot",
                          "Find alternative resources"] } :: confls, s2, ?_, ?_, ?_,
        hf1, hf2, hf3, hf4, hf5, hf6⟩
      · unfold allocateResourcesGo
        rw [hstep]
        dsimp only
        rw [hgo]
      · simp [List.length_cons, ← hlen]
        omega
      · intro c hc
        rcases List.mem_cons.mp hc with rfl | hc
        · rfl
        · exact htypes c hc

theorem resourceAvailableFor_congr (s s1 : DBState) (e : Event) (req : ResourceRequest)
    (hres : s1.resources = s.resources)
    (hover : ∀ res, s.resources.find? (fun r => r.id == req.resourceId) = some res →
      overlappingResourceBookings s1 e res.id = overlappingResourceBookings s e res.id) :
    resourceAvailableFor s1 e req ↔ resourceAvailableFor s e req := by
  unfold resourceAvailableFor
  rw [hres]
  constructor
  · intro h res hfind
    have := h res hfind
    rwa [hover res hfind] at this
  · intro h res hfind
    rw [hover res hfind]
    exact h res hfind

theorem allocateResourcesGo_confls_nil_iff (e : Event) :
    ∀ (reqs : List ResourceRequest) (s : DBState),
      reqs.Pairwise (fun a b => a.resourceId ≠ b.resourceId) →
      (∀ req ∈ reqs, (s.resources.find? (fun r => r.id == req.resourceId)).isSome = true) →
      ∀ allocs confls s2, allocateResourcesGo e reqs s = .ok (allocs, confls, s2) →
        (confls = [] ↔ ∀ req ∈ reqs, resourceAvailableFor s e req) := by
  intro reqs
  induction reqs with
  | nil =>
    intro s _ _ allocs confls s2 h
    cases h
    simp
  | cons req rest ih =>
    intro s hdist hfinds allocs confls s2 h
    obtain ⟨resource, hres⟩ := Option.isSome_iff_exists.mp
      (hfinds req (List.mem_cons_self req rest))
    have hresid : resource.id = req.resourceId := by
      have := List.find?_some hres
      simpa [beq_iff_eq] using this
    by_cases hle : req.quantityNeeded ≤
        resource.totalQuantity - bookedQuantity (overlappingResourceBookings s e resource.id)
    · have hstep := (allocateOneResource_ok s e req resource hres).1 hle
      unfold allocateResourcesGo at h
      rw [hstep] at h
      dsimp only at h
      set s1 : DBState :=
        { s with
          resourceBookings := s.resourceBookings ++
            [{ resourceId := resource.id, eventId := e.id, quantity := req.quantityNeeded,
               startTime := e.scheduleStart, endTime := e.scheduleEnd, status := "confirmed" }],
          requests := s.requests.map (fun q =>
            if q.id = req.id then
              { q with isAllocated := true, allocatedQuantity := some req.quantityNeeded }
            else q) } with hs1
      cases hgo : allocateResourcesGo e rest s1 with
      | error m =>
        rw [hgo] at h
        exact Except.noConfusion h
      | ok triple =>
        obtain ⟨allocs1, confls1, s21⟩ := triple
        have hfinds1 : ∀ r ∈ rest, (s1.resources.find? (fun x => x.id == r.resourceId)).isSome = true := by
          intro r hr
          exact hfinds r (List.mem_cons_of_mem req hr)
        have hiff := ih s1 (List.pairwise_cons.mp hdist).2 hfinds1 allocs1 confls1 s21 hgo
        rw [hgo] at h
        cases h
        have hcongr : ∀ r ∈ rest, (resourceAvailableFor s1 e r ↔ resourceAvailableFor s e r) := by
          intro r hr
          apply resourceAvailableFor_congr s s1 e r rfl
          intro res hfind
          have hrid : res.id = r.resourceId := by
            have := List.find?_some hfind
            simpa [beq_iff_eq] using this
          apply overlappingResourceBookings_append_ne s e res.id _ _ s1 rfl
          rw [hresid, hrid]
          exact (List.pairwise_cons.mp hdist).1 r hr
        have hhead : resourceAvailableFor s e req := by
          intro res hfind
          rw [hfind] at hres
          cases hres
          exact hle
        constructor
        · intro hnil r hr
          rcases List.mem_cons.mp hr with rfl | hr
          · exact hhead
          · exact (hcongr r hr).mp (hiff.mp hnil r hr)
        · intro hall
          apply hiff.mpr
          intro r hr
          exact (hcongr r hr).mpr (hall r (List.mem_cons_of_mem req hr))
    · have hstep := (allocateOneResource_ok s e req resource hres).2 (not_le.mp hle)
      unfold allocateResourcesGo at h
      rw [hstep] at h
      dsimp only at h
      cases hgo : allocateResourcesGo e rest s with
      | error m =>
        rw [hgo] at h
        exact Except.noConfusion h
      | ok triple =>
        obtain ⟨allocs1, confls1, s21⟩ := triple
        rw [hgo] at h
        cases h
        constructor
        · intro hnil
          exact List.noConfusion hnil
        · intro hall
          exact absurd (hall req (List.mem_cons_self req rest) resource hres) (not_le.mpr (not_le.mp hle))

theorem overlappingResourceBookings_congr {s s1 : DBState}
    (h : s1.resourceBookings = s.resourceBookings) (e : Event) (rid : String) :
    overlappingResourceBookings s1 e rid = overlappingResourceBookings s e rid := by
  unfold overlappingResourceBookings
  rw [h]

theorem allocateResources_eq (reqs : List ResourceRequest) (e : Event) (s : DBState)
    (allocs : List (String × Int)) (confls : List AllocationConflict) (s2 : DBState)
    (hgo : allocateResourcesGo e reqs s = .ok (allocs, confls, s2)) :
    allocateResources reqs e s = .ok
      (if confls.length > 0 then
        { success := false, allocations := [], conflicts := confls,
          explanation := "Failed to allocate " ++ toString confls.length ++ " resources" }
       else
        { success := true, allocations := allocs, conflicts := [],
          explanation := "Successfully allocated " ++ toString allocs.length ++ " resources" }, s2) := by
  unfold allocateResources
  rw [hgo]
  dsimp only
  by_cases hc : confls.length > 0
  · rw [if_pos hc, if_pos hc]
  · rw [if_neg hc, if_neg hc]

theorem allocateEvent_characterize (s : DBState) (eventId : String) (event : Event)
    (hev : s.events.find? (fun ev => ev.id == eventId) = some event)
    (hstage : event.approvalStage = ApprovalStage.HEAD_APPROVED)
    (hfinds : ∀ req ∈ eventRequests s eventId,
      (s.resources.find? (fun r => r.id == req.resourceId)).isSome = true) :
    ∃ r s2, allocateEvent s eventId = .ok (r, s2) ∧
      ((eventRequests s eventId).Pairwise (fun a b => a.resourceId ≠ b.resourceId) →
        (r.success = true ↔ ((∃ v, isCandidate s event v ∧ venueFree s event v) ∧
          ∀ req ∈ eventRequests s eventId, resourceAvailableFor s event req))) := by
  unfold allocateEvent
  rw [hev]
  dsimp only
  rw [if_neg (by simp [hstage])]
  cases hvs : (allocateVenue s event).1.success with
  | false =>
    rw [if_pos rfl]
    refine ⟨_, _, rfl, ?_⟩
    intro _
    simp only [Bool.false_eq_true, false_iff]
    rintro ⟨⟨v, hv, hvfree⟩, _⟩
    have : (allocateVenue s event).1.success = true :=
      (allocateVenue_success_iff s event).mpr ⟨v, hv, hvfree⟩
    rw [hvs] at this
    exact Bool.noConfusion this
  | true =>
    rw [if_neg (by simp)]
    have hfields := allocateVenue_state_fields s event
    have hfinds1 : ∀ req ∈ eventRequests s eventId,
        ((allocateVenue s event).2.resources.find? (fun r => r.id == req.resourceId)).isSome = true := by
      intro req hreq
      rw [hfields.2.2.2.1]
      exact hfinds req hreq
    obtain ⟨allocs, confls, s2, hgo, _, _, hr1, _, _, _, _, _⟩ :=
      allocateResourcesGo_ok event (eventRequests s eventId) (allocateVenue s event).2 hfinds1
    rw [allocateResources_eq (eventRequests s eventId) event (allocateVenue s event).2
      allocs confls s2 hgo]
    have havail_congr : ∀ req, (resourceAvailableFor (allocateVenue s event).2 event req ↔
        resourceAvailableFor s event req) := by
      intro req
      apply resourceAvailableFor_congr s (allocateVenue s event).2 event req hfields.2.2.2.1
      intro res _
      exact overlappingResourceBookings_congr hfields.2.2.2.2.2.1 event res.id
    by_cases hc : confls.length > 0
    · rw [if_pos hc]
      dsimp only
      rw [if_pos rfl]
      refine ⟨_, _, rfl, ?_⟩
      intro hdist
      simp only [Bool.false_eq_true, false_iff]
      rintro ⟨_, hall⟩
      have hiff := allocateResourcesGo_confls_nil_iff event (eventRequests s eventId)
        (allocateVenue s event).2 hdist hfinds1 allocs confls s2 hgo
      have : confls = [] := by
        apply hiff.mpr
        intro req hreq
        exact (havail_congr req).mpr (hall req hreq)
      rw [this] at hc
      exact absurd hc (by simp)
    · rw [if_neg hc]
      dsimp only
      rw [if_neg (by simp)]
      refine ⟨_, _, rfl, ?_⟩
      intro hdist
      simp only [true_iff]
      have hiff := allocateResourcesGo_confls_nil_iff event (eventRequests s eventId)
        (allocateVenue s event).2 hdist hfinds1 allocs confls s2 hgo
      have hnil : confls = [] := by
        cases hcl : confls with
        | nil => rfl
        | cons c cs => rw [hcl] at hc; exact absurd (by simp) hc
      constructor
      · exact (allocateVenue_success_iff s event).mp hvs
      · intro req hreq
        exact (havail_congr req).mp (hiff.mp hnil req hreq)

theorem checkVenueAvailabilitySuccess_iff (s : DBState) (e : Event) :
    (checkVenueAvailabilitySuccess s e).1 = true ↔
      ∃ v ∈ s.venues, v.isActive = true ∧ v.maintenanceMode = false ∧
        e.participantCount ≤ v.capacity ∧ venueFree s e v := by
  unfold checkVenueAvailabilitySuccess
  set cands := s.venues.filter (fun v =>
    v.isActive && !v.maintenanceMode && decide (e.participantCount ≤ v.capacity)) with hcands
  have hmem : ∀ v, v ∈ cands ↔ v ∈ s.venues ∧ v.isActive = true ∧ v.maintenanceMode = false ∧
      e.participantCount ≤ v.capacity := by
    intro v
    rw [hcands, List.mem_filter]
    simp [and_assoc]
  by_cases hempty : cands.isEmpty
  · rw [if_pos hempty]
    simp only [List.isEmpty_iff] at hempty
    simp only [Bool.false_eq_true, false_iff]
    rintro ⟨v, hv, h1, h2, h3, _⟩
    have : v ∈ cands := (hmem v).mpr ⟨hv, h1, h2, h3⟩
    rw [hempty] at this
    exact absurd this (List.not_mem_nil v)
  · rw [if_neg hempty]
    cases hfind : firstFreeVenue s e cands with
    | some v =>
      simp only [true_iff]
      obtain ⟨hv, hfree⟩ := firstFreeVenue_eq_some hfind
      obtain ⟨h1, h2, h3, h4⟩ := (hmem v).mp hv
      exact ⟨v, h1, h2, h3, h4, hfree⟩
    | none =>
      simp only [Bool.false_eq_true, false_iff]
      rintro ⟨v, hv, h1, h2, h3, hfree⟩
      exact absurd hfree (firstFreeVenue_eq_none.mp hfind v ((hmem v).mpr ⟨hv, h1, h2, h3⟩))

theorem checkResourceGo_ok (s : DBState) (e : Event) :
    ∀ reqs : List ResourceRequest,
      (∀ req ∈ reqs, (s.resources.find? (fun r => r.id == req.resourceId)).isSome = true) →
      ∃ confls, checkResourceGo s e reqs = .ok confls ∧
        (confls = [] ↔ ∀ req ∈ reqs, resourceAvailableFor s e req) := by
  intro reqs
  induction reqs with
  | nil =>
    intro _
    exact ⟨[], rfl, by simp⟩
  | cons req rest ih =>
    intro hfinds
    obtain ⟨resource, hres⟩ := Option.isSome_iff_exists.mp
      (hfinds req (List.mem_cons_self req rest))
    have hresid : resource.id = req.resourceId := by
      have := List.find?_some hres
      simpa [beq_iff_eq] using this
    obtain ⟨confls, hrec, hiff⟩ := ih (fun r hr => hfinds r (List.mem_cons_of_mem req hr))
    unfold checkResourceGo
    rw [hres]
    dsimp only
    rw [hrec]
    dsimp only
    by_cases hlt : resource.totalQuantity -
        bookedQuantity (overlappingResourceBookings s e req.resourceId) < req.quantityNeeded
    · rw [if_pos hlt]
      refine ⟨_, rfl, ?_⟩
      constructor
      · intro h
        exact List.noConfusion h
      · intro hall
        have := hall req (List.mem_cons_self req rest) resource hres
        rw [hresid] at this
        exact absurd this (not_le.mpr hlt)
    · rw [if_neg hlt]
      refine ⟨confls, rfl, ?_⟩
      have hhead : resourceAvailableFor s e req := by
        intro res hfind
        rw [hfind] at hres
        cases hres
        rw [hresid]
        exact not_lt.mp hlt
      rw [hiff]
      constructor
      · intro hall r hr
        rcases List.mem_cons.mp hr with rfl | hr
        · exact hhead
        · exact hall r hr
      · intro hall r hr
        exact hall r (List.mem_cons_of_mem req hr)

theorem checkAllocationFeasibility_characterize (s : DBState) (eventId : String) (event : Event)
    (hev : s.events.find? (fun ev => ev.id == eventId) = some event)
    (hfinds : ∀ req ∈ eventRequests s event.id,
      (s.resources.find? (fun r => r.id == req.resourceId)).isSome = true) :
    ∃ r, checkAllocationFeasibility s eventId = .ok (r, s) ∧
      (r.success = true ↔ ((checkVenueAvailabilitySuccess s event).1 = true ∧
        ∀ req ∈ eventRequests s event.id, resourceAvailableFor s event req)) := by
  unfold checkAllocationFeasibility
  rw [hev]
  dsimp only
  obtain ⟨confls, hrec, hiff⟩ := checkResourceGo_ok s event (eventRequests s event.id) hfinds
  unfold checkResourceAvailability
  rw [hrec]
  dsimp only
  refine ⟨_, rfl, ?_⟩
  simp only [Bool.and_eq_true, List.isEmpty_iff]
  rw [hiff]

theorem processApproval_denied (s : DBState) (ctx : ApprovalContext) (event : Event)
    (approver : User)
    (hev : s.events.find? (fun ev => ev.id == ctx.eventId) = some event)
    (hap : s.users.find? (fun u => u.id == ctx.approverId) = some approver)
    (hperm : validateApprovalPermission approver.role event.approvalStage approver.schoolId
      approver.departmentId event.schoolId event.departmentId = false) :
    processApproval s ctx =
      .ok ({ success := false, nextStage := none,
             error := some "Insufficient permissions to approve this event" }, s) := by
  unfold processApproval
  rw [hev]
  dsimp only
  rw [hap]
  dsimp only
  rw [if_pos hperm]

theorem approvedBranch_notFinal (s : DBState) (event : Event) (cm : Option String)
    (h : getNextApprovalStage event.approvalStage ≠ ApprovalStage.APPROVED) :
    approvedBranch s event cm =
      .ok ((getNextApprovalStage event.approvalStage, event.status,
            ApprovalAction.APPROVED, cm), s) := by
  unfold approvedBranch
  rw [if_neg h]

theorem approvedBranch_downgrade (s : DBState) (event : Event) (cm : Option String)
    (alloc : AllocationResult) (s1 : DBState)
    (hnext : getNextApprovalStage event.approvalStage = ApprovalStage.APPROVED)
    (halloc : allocateEvent s event.id = .ok (alloc, s1))
    (hfail : alloc.success = false) :
    approvedBranch s event cm =
      .ok ((event.approvalStage, EventStatus.SUBMITTED, ApprovalAction.MODIFICATION_REQUIRED,
            some ("Allocation failed: " ++ alloc.explanation)), s1) := by
  unfold approvedBranch
  rw [hnext, if_pos rfl, halloc]
  dsimp only
  rw [if_neg (by simp [hfail])]

theorem processApproval_approved_eq (s : DBState) (ctx : ApprovalContext) (event : Event)
    (approver : User)
    (hev : s.events.find? (fun ev => ev.id == ctx.eventId) = some event)
    (hap : s.users.find? (fun u => u.id == ctx.approverId) = some approver)
    (hperm : validateApprovalPermission approver.role event.approvalStage approver.schoolId
      approver.departmentId event.schoolId event.departmentId = true)
    (haction : ctx.action = ApprovalAction.APPROVED)
    (ns : ApprovalStage) (st : EventStatus) (act : ApprovalAction) (cm : Option String)
    (s1 : DBState)
    (hbranch : approvedBranch s event ctx.comments = .ok ((ns, st, act, cm), s1)) :
    processApproval s ctx = .ok (commitTransition s1 ctx.eventId ctx.approverId ns st act cm) := by
  unfold processApproval
  rw [hev]
  dsimp only
  rw [hap]
  dsimp only
  rw [if_neg (by simp [hperm]), haction]
  dsimp only
  rw [hbranch]

theorem commitTransition_post (s : DBState) (eventId approverId : String) (ns : ApprovalStage)
    (st : EventStatus) (act : ApprovalAction) (cm : Option String) :
    (commitTransition s eventId approverId ns st act cm).1 =
      { success := true, nextStage := some ns, error := none } ∧
    (commitTransition s eventId approverId ns st act cm).2.venueBookings = s.venueBookings ∧
    (commitTransition s eventId approverId ns st act cm).2.resourceBookings = s.resourceBookings ∧
    (commitTransition s eventId approverId ns st act cm).2.requests = s.requests ∧
    (commitTransition s eventId approverId ns st act cm).2.approvalSteps.getLast? =
      some { eventId := eventId, approverId := approverId, stage := ns, action := act,
             comments := cm } ∧
    (∀ ev ∈ (commitTransition s eventId approverId ns st act cm).2.events,
      ev.id = eventId → ev.approvalStage = ns ∧ ev.status = st) := by
  refine ⟨rfl, rfl, rfl, rfl, List.getLast?_concat _, ?_⟩
  intro ev hmem hid
  unfold commitTransition at hmem
  dsimp only at hmem
  obtain ⟨a, _, rfl⟩ := List.mem_map.mp hmem
  by_cases hai : a.id = eventId
  · rw [if_pos hai]
    exact ⟨rfl, rfl⟩
  · rw [if_neg hai] at hid ⊢
    exact absurd hid hai

/-- C9: the stage-successor function follows the fixed linear chain exactly:
Draft to Submitted, Submitted to HodApproved, HodApproved to DeanApproved,
DeanApproved to HeadApproved, HeadApproved to Approved; ModificationRequired
maps back to Submitted; Approved and Rejected map to themselves. -/
theorem c9_stage_chain :
    getNextApprovalStage .DRAFT = .SUBMITTED ∧
    getNextApprovalStage .SUBMITTED = .HOD_APPROVED ∧
    getNextApprovalStage .HOD_APPROVED = .DEAN_APPROVED ∧
    getNextApprovalStage .DEAN_APPROVED = .HEAD_APPROVED ∧
    getNextApprovalStage .HEAD_APPROVED = .APPROVED ∧
    getNextApprovalStage .MODIFICATION_REQUIRED = .SUBMITTED ∧
    getNextApprovalStage .APPROVED = .APPROVED ∧
    getNextApprovalStage .REJECTED = .REJECTED := by
  decide

/-- C1: allocateEvent is claimed to roll back every booking of a failed
attempt, leaving the booking state unchanged. The code commits them: when a
resource request is short, the transaction callback returns a structured
failure instead of throwing, so the venue booking, the bookings of the
satisfiable requests and their request updates are committed. Evaluated at
the failing input: one free venue, request q1 satisfiable, request q2 short;
the call reports failure yet the returned committed state holds one venue
booking, one resource booking and one allocated request, while the initial
state held none. -/
theorem c1_failure_commits_partial_bookings :
    ((allocateEvent c1_state "e1").toOption.map (fun p => p.1.success) = some false) ∧
    ((allocateEvent c1_state "e1").toOption.map (fun p => p.2.venueBookings.length) = some 1) ∧
    ((allocateEvent c1_state "e1").toOption.map (fun p => p.2.resourceBookings.length) = some 1) ∧
    ((allocateEvent c1_state "e1").toOption.map
      (fun p => (p.2.requests.filter (fun q => q.isAllocated)).length) = some 1) ∧
    c1_state.venueBookings = [] ∧ c1_state.resourceBookings = [] ∧
    (∀ q ∈ c1_state.requests, q.isAllocated = false) := by
  decide

/-- C2 counterexample: an Institutional Head approving an event at
DeanApproved. The claim says the Allocation Engine runs in the same
transition and stage and status become Approved on success; on this state a
free venue exists and no resources are requested (the feasibility check
returns success), yet processApproval moves the event to HeadApproved, books
nothing, and leaves the status untouched. -/
theorem c2_counterexample :
    ((processApproval c2_state c2_ctx).toOption.map (fun p => p.1.nextStage) =
      some (some ApprovalStage.HEAD_APPROVED)) ∧
    ((processApproval c2_state c2_ctx).toOption.map (fun p => p.2.venueBookings) = some []) ∧
    ((processApproval c2_state c2_ctx).toOption.map
      (fun p => p.2.events.map (fun ev => ev.approvalStage)) =
      some [ApprovalStage.HEAD_APPROVED]) ∧
    ((processApproval c2_state c2_ctx).toOption.map
      (fun p => p.2.events.map (fun ev => ev.status)) = some [EventStatus.SUBMITTED]) ∧
    ((checkAllocationFeasibility c2_state "e2").toOption.map (fun p => p.1.success) =
      some true) := by
  decide

/-- C2 (amended): for every event at stage DeanApproved and approver with
role Institutional Head, processApproval with action Approved does not
invoke the Allocation Engine; it advances the stage to HeadApproved, leaves
the event status and all bookings unchanged, and returns success with next
stage HeadApproved. The engine is invoked only when the computed next stage
is the terminal Approved stage, which would require the current stage
HeadApproved that no approver role passes permission for. -/
theorem c2_institutional_head_advance (s : DBState) (ctx : ApprovalContext) (event : Event)
    (approver : User)
    (hev : s.events.find? (fun ev => ev.id == ctx.eventId) = some event)
    (hap : s.users.find? (fun u => u.id == ctx.approverId) = some approver)
    (hrole : approver.role = Role.INSTITUTIONAL_HEAD)
    (hstage : event.approvalStage = ApprovalStage.DEAN_APPROVED)
    (haction : ctx.action = ApprovalAction.APPROVED) :
    ∃ s2, processApproval s ctx =
      .ok ({ success := true, nextStage := some ApprovalStage.HEAD_APPROVED, error := none }, s2) ∧
      s2.venueBookings = s.venueBookings ∧ s2.resourceBookings = s.resourceBookings ∧
      (∀ ev ∈ s2.events, ev.id = ctx.eventId →
        ev.approvalStage = ApprovalStage.HEAD_APPROVED ∧ ev.status = event.status) := by
  have hperm : validateApprovalPermission approver.role event.approvalStage approver.schoolId
      approver.departmentId event.schoolId event.departmentId = true := by
    rw [hrole, hstage]
    simp [validateApprovalPermission]
  have hns : getNextApprovalStage event.approvalStage = ApprovalStage.HEAD_APPROVED := by
    rw [hstage]
    rfl
  have hbranch := approvedBranch_notFinal s event ctx.comments (by rw [hns]; decide)
  rw [hns] at hbranch
  have heq := processApproval_approved_eq s ctx event approver hev hap hperm haction
    ApprovalStage.HEAD_APPROVED event.status ApprovalAction.APPROVED ctx.comments s hbranch
  have hpost := commitTransition_post s ctx.eventId ctx.approverId ApprovalStage.HEAD_APPROVED
    event.status ApprovalAction.APPROVED ctx.comments
  refine ⟨(commitTransition s ctx.eventId ctx.approverId ApprovalStage.HEAD_APPROVED
    event.status ApprovalAction.APPROVED ctx.comments).2, ?_, hpost.2.1, hpost.2.2.1,
    hpost.2.2.2.2.2⟩
  rw [heq, ← hpost.1]

/-- Witness for C2 (amended): the Institutional Head approver h1 acting on
event e2 at DeanApproved advances it to HeadApproved with no booking
created. -/
theorem c2_institutional_head_advance_witness :
    ∃ s2, processApproval c2_state c2_ctx =
      .ok ({ success := true, nextStage := some ApprovalStage.HEAD_APPROVED, error := none }, s2) ∧
      s2.venueBookings = c2_state.venueBookings ∧
      s2.resourceBookings = c2_state.resourceBookings ∧
      (∀ ev ∈ s2.events, ev.id = c2_ctx.eventId →
        ev.approvalStage = ApprovalStage.HEAD_APPROVED ∧ ev.status = c2_event.status) :=
  c2_institutional_head_advance c2_state c2_ctx c2_event
    { id := "h1", role := Role.INSTITUTIONAL_HEAD, schoolId := none,
      departmentId := none, isActive := true }
    (by decide) (by decide) rfl rfl rfl

/-- C3: when the computed next stage of an Approved action is the terminal
Approved stage and the allocation run fails, the transition is downgraded:
the stage is reverted to the pre-transition stage, the event status is set
to Submitted, the recorded ApprovalStep carries action ModificationRequired
and the allocation failure explanation in its comments. Stated over the
Approved-action branch and the commit step of processApproval, the code
handling exactly such calls. -/
theorem c3_downgrade_on_allocation_failure (s : DBState) (event : Event) (cm : Option String)
    (approverId : String) (alloc : AllocationResult) (s1 : DBState)
    (hnext : getNextApprovalStage event.approvalStage = ApprovalStage.APPROVED)
    (halloc : allocateEvent s event.id = .ok (alloc, s1))
    (hfail : alloc.success = false) :
    approvedBranch s event cm =
      .ok ((event.approvalStage, EventStatus.SUBMITTED, ApprovalAction.MODIFICATION_REQUIRED,
            some ("Allocation failed: " ++ alloc.explanation)), s1) ∧
    (commitTransition s1 event.id approverId event.approvalStage EventStatus.SUBMITTED
        ApprovalAction.MODIFICATION_REQUIRED
        (some ("Allocation failed: " ++ alloc.explanation))).1 =
      { success := true, nextStage := some event.approvalStage, error := none } ∧
    (∀ ev ∈ (commitTransition s1 event.id approverId event.approvalStage EventStatus.SUBMITTED
        ApprovalAction.MODIFICATION_REQUIRED
        (some ("Allocation failed: " ++ alloc.explanation))).2.events,
      ev.id = event.id →
        ev.approvalStage = event.approvalStage ∧ ev.status = EventStatus.SUBMITTED) ∧
    (commitTransition s1 event.id approverId event.approvalStage EventStatus.SUBMITTED
        ApprovalAction.MODIFICATION_REQUIRED
        (some ("Allocation failed: " ++ alloc.explanation))).2.approvalSteps.getLast? =
      some { eventId := event.id, approverId := approverId, stage := event.approvalStage,
             action := ApprovalAction.MODIFICATION_REQUIRED,
             comments := some ("Allocation failed: " ++ alloc.explanation) } := by
  have hpost := commitTransition_post s1 event.id approverId event.approvalStage
    EventStatus.SUBMITTED ApprovalAction.MODIFICATION_REQUIRED
    (some ("Allocation failed: " ++ alloc.explanation))
  exact ⟨approvedBranch_downgrade s event cm alloc s1 hnext halloc hfail,
    hpost.1, hpost.2.2.2.2.2, hpost.2.2.2.2.1⟩

/-- Witness for C3: event e3 at HeadApproved with no venues in the store;
allocation fails with venue_unavailable and the Approved action is recorded
as a ModificationRequired step at the reverted stage with the explanation. -/
theorem c3_downgrade_on_allocation_failure_witness :
    approvedBranch c3_state c3_event none =
      .ok ((c3_event.approvalStage, EventStatus.SUBMITTED, ApprovalAction.MODIFICATION_REQUIRED,
            some ("Allocation failed: " ++ c3_alloc.explanation)), c3_state) ∧
    (commitTransition c3_state c3_event.id "h9" c3_event.approvalStage EventStatus.SUBMITTED
        ApprovalAction.MODIFICATION_REQUIRED
        (some ("Allocation failed: " ++ c3_alloc.explanation))).1 =
      { success := true, nextStage := some c3_event.approvalStage, error := none } ∧
    (∀ ev ∈ (commitTransition c3_state c3_event.id "h9" c3_event.approvalStage
        EventStatus.SUBMITTED ApprovalAction.MODIFICATION_REQUIRED
        (some ("Allocation failed: " ++ c3_alloc.explanation))).2.events,
      ev.id = c3_event.id →
        ev.approvalStage = c3_event.approvalStage ∧ ev.status = EventStatus.SUBMITTED) ∧
    (commitTransition c3_state c3_event.id "h9" c3_event.approvalStage EventStatus.SUBMITTED
        ApprovalAction.MODIFICATION_REQUIRED
        (some ("Allocation failed: " ++ c3_alloc.explanation))).2.approvalSteps.getLast? =
      some { eventId := c3_event.id, approverId := "h9", stage := c3_event.approvalStage,
             action := ApprovalAction.MODIFICATION_REQUIRED,
             comments := some ("Allocation failed: " ++ c3_alloc.explanation) } :=
  c3_downgrade_on_allocation_failure c3_state c3_event none "h9" c3_alloc c3_state
    (by decide) (by decide) (by decide)

/-- C4: venue selection considers exactly the active, non-maintenance venues
of sufficient capacity matching the stated type preference, and the booked
venue is a conflict-free candidate minimal in the (capacity, name) order
among all conflict-free candidates, with its confirmed booking appended;
success holds exactly when some conflict-free candidate exists. -/
theorem c4_venue_selection (s : DBState) (e : Event) :
    ((allocateVenue s e).1.success = true ↔ ∃ v, isCandidate s e v ∧ venueFree s e v) ∧
    (∀ vid, (allocateVenue s e).1.venueId = some vid →
      ∃ v : Venue, v.id = vid ∧ isCandidate s e v ∧ venueFree s e v ∧
        (∀ w, isCandidate s e w → venueFree s e w → venueOrder v w) ∧
        (allocateVenue s e).2.venueBookings = s.venueBookings ++
          [{ venueId := vid, eventId := e.id, startTime := e.scheduleStart,
             endTime := e.scheduleEnd, status := "confirmed" }]) := by
  refine ⟨allocateVenue_success_iff s e, ?_⟩
  intro vid h
  obtain ⟨v, h1, h2, h3, h4, _, h6⟩ := allocateVenue_venueId_some s e vid h
  exact ⟨v, h1, h2, h3, h4, h6⟩

/-- Witness for C4 at Scenario A: two conflict-free active venues of
capacity 100 and 60, participant count 50 — the capacity-60 venue is the one
booked, and it is minimal among the free candidates. -/
theorem c4_venue_selection_witness :
    (allocateVenue scA_state scA_event).1.venueId = some "v60" ∧
    (∃ v : Venue, v.id = "v60" ∧ isCandidate scA_state scA_event v ∧
      venueFree scA_state scA_event v ∧
      (∀ w, isCandidate scA_state scA_event w → venueFree scA_state scA_event w →
        venueOrder v w) ∧
      (allocateVenue scA_state scA_event).2.venueBookings = scA_state.venueBookings ++
        [{ venueId := "v60", eventId := scA_event.id, startTime := scA_event.scheduleStart,
           endTime := scA_event.scheduleEnd, status := "confirmed" }]) :=
  ⟨by decide, (c4_venue_selection scA_state scA_event).2 "v60" (by decide)⟩

/-- C5: for one resource request, availability is the totalQuantity of the
resource minus the summed quantities of confirmed bookings strictly
overlapping the event window; when it covers the request a confirmed
booking of exactly the requested quantity is created and the request row is
marked allocated with that quantity, otherwise a resource_shortage conflict
carries the shortfall numbers and the ids of the overlapping bookings
events. -/
theorem c5_resource_request_outcome (s : DBState) (e : Event) (req : ResourceRequest)
    (resource : Resource)
    (hres : s.resources.find? (fun r => r.id == req.resourceId) = some resource) :
    (req.quantityNeeded ≤ resource.totalQuantity - windowBookedSum s e resource.id →
      allocateOneResource s e req = .ok (Sum.inl (resource.id, req.quantityNeeded),
        { s with
          resourceBookings := s.resourceBookings ++
            [{ resourceId := resource.id, eventId := e.id, quantity := req.quantityNeeded,
               startTime := e.scheduleStart, endTime := e.scheduleEnd, status := "confirmed" }],
          requests := s.requests.map (fun q =>
            if q.id = req.id then
              { q with isAllocated := true, allocatedQuantity := some req.quantityNeeded }
            else q) })) ∧
    (resource.totalQuantity - windowBookedSum s e resource.id < req.quantityNeeded →
      allocateOneResource s e req = .ok (Sum.inr
        { type := ConflictType.resource_shortage,
          conflictingEventIds := (overlappingResourceBookings s e resource.id).map
            (fun b => b.eventId),
          details := shortageDetails resource.name req.quantityNeeded
            (resource.totalQuantity - windowBookedSum s e resource.id)
            (windowBookedSum s e resource.id),
          suggestions := ["Reduce quantity requirement", "Choose different time slot",
                          "Find alternative resources"] }, s)) := by
  have hbq : bookedQuantity (overlappingResourceBookings s e resource.id) =
      windowBookedSum s e resource.id :=
    bookedQuantity_eq_sum (overlappingResourceBookings s e resource.id)
  have h := allocateOneResource_ok s e req resource hres
  rw [hbq] at h
  exact h

/-- Witness for C5 at Scenario C: resource totalQuantity 20, a confirmed
booking of 15 overlaps the window, the event requests 10 — the request fails
with a resource_shortage conflict reading Need 10, only 5 available, naming
the overlapping booking event. -/
theorem c5_resource_request_outcome_witness :
    allocateOneResource c5_state c5_event c5_req = .ok (Sum.inr
      { type := ConflictType.resource_shortage,
        conflictingEventIds := ["eOther"],
        details := "Speakers: Need 10, only 5 available (15 already booked)",
        suggestions := ["Reduce quantity requirement", "Choose different time slot",
                        "Find alternative resources"] }, c5_state) ∧
    c5_resource.totalQuantity - windowBookedSum c5_state c5_event "rC" = 5 := by
  constructor
  · have h := (c5_resource_request_outcome c5_state c5_event c5_req c5_resource
      (by decide)).2 (by decide)
    exact h
  · decide

/-- C6: resource allocation evaluates every request before deciding: each
request contributes exactly one allocation or one resource_shortage
conflict, so on failure the conflict list has one entry per unsatisfied
request rather than only the first. -/
theorem c6_all_requests_evaluated (s : DBState) (e : Event) (reqs : List ResourceRequest)
    (hfinds : ∀ req ∈ reqs,
      (s.resources.find? (fun r => r.id == req.resourceId)).isSome = true) :
    ∃ allocs confls s2, allocateResourcesGo e reqs s = .ok (allocs, confls, s2) ∧
      allocs.length + confls.length = reqs.length ∧
      (∀ c ∈ confls, c.type = ConflictType.resource_shortage) ∧
      (confls.length > 0 →
        allocateResources reqs e s =
          .ok ({ success := false, allocations := [], conflicts := confls,
                 explanation := "Failed to allocate " ++ toString confls.length ++
                   " resources" }, s2)) := by
  obtain ⟨allocs, confls, s2, hgo, hlen, htype, _⟩ := allocateResourcesGo_ok e reqs s hfinds
  refine ⟨allocs, confls, s2, hgo, hlen, htype, ?_⟩
  intro hc
  rw [allocateResources_eq reqs e s allocs confls s2 hgo, if_pos hc]

/-- Witness for C6: two requests, both short — the failure carries both
resource_shortage conflicts, not just the first. -/
theorem c6_all_requests_evaluated_witness :
    (∃ allocs confls s2, allocateResourcesGo c6_event c6_reqs c6_state =
        .ok (allocs, confls, s2) ∧
      allocs.length + confls.length = c6_reqs.length ∧
      (∀ c ∈ confls, c.type = ConflictType.resource_shortage) ∧
      (confls.length > 0 →
        allocateResources c6_reqs c6_event c6_state =
          .ok ({ success := false, allocations := [], conflicts := confls,
                 explanation := "Failed to allocate " ++ toString confls.length ++
                   " resources" }, s2))) ∧
    ((allocateResources c6_reqs c6_event c6_state).toOption.map
      (fun p => (p.1.success, p.1.conflicts.length))) = some (false, 2) :=
  ⟨c6_all_requests_evaluated c6_state c6_event c6_reqs (by decide), by decide⟩

/-- C7 counterexample: the event states venue-type preference lab; the only
venue is of type hall, active, free and large enough. allocateEvent rejects
it (the type filter leaves no candidate) while checkAllocationFeasibility,
whose venue check omits the type filter, reports success — refuting the
claim that the feasibility check succeeds exactly when the checks of
allocateEvent would. -/
theorem c7_counterexample :
    ((checkAllocationFeasibility c7_state "e7").toOption.map (fun p => p.1.success) =
      some true) ∧
    ((allocateEvent c7_state "e7").toOption.map (fun p => p.1.success) = some false) := by
  decide

/-- C7 (amended): checkAllocationFeasibility mutates no state (the store is
returned unchanged) and may be called at any approval stage; it succeeds
exactly when some active, non-maintenance venue of sufficient capacity —
the venue-type preference NOT applied, unlike allocateVenue — is free of
overlapping confirmed bookings and every resource request is coverable on
the current bookings; when the event has no type preference, its requests
name pairwise-distinct resources and the event is at HeadApproved, this
coincides with the success of allocateEvent. -/
theorem c7_feasibility_characterization (s : DBState) (eventId : String) (event : Event)
    (hev : s.events.find? (fun ev => ev.id == eventId) = some event)
    (hfinds : ∀ req ∈ eventRequests s event.id,
      (s.resources.find? (fun r => r.id == req.resourceId)).isSome = true) :
    ∃ r, checkAllocationFeasibility s eventId = .ok (r, s) ∧
      (r.success = true ↔
        ((∃ v ∈ s.venues, v.isActive = true ∧ v.maintenanceMode = false ∧
            event.participantCount ≤ v.capacity ∧ venueFree s event v) ∧
          ∀ req ∈ eventRequests s event.id, resourceAvailableFor s event req)) ∧
      (event.venueTypePreference = none →
        event.approvalStage = ApprovalStage.HEAD_APPROVED →
        (eventRequests s event.id).Pairwise (fun a b => a.resourceId ≠ b.resourceId) →
        ∃ ar s2, allocateEvent s eventId = .ok (ar, s2) ∧ ar.success = r.success) := by
  have heid : event.id = eventId := by
    have := List.find?_some hev
    simpa [beq_iff_eq] using this
  obtain ⟨r, hfeas, hiff⟩ := checkAllocationFeasibility_characterize s eventId event hev hfinds
  refine ⟨r, hfeas, hiff.trans ?_, ?_⟩
  · exact and_congr_left (fun _ => checkVenueAvailabilitySuccess_iff s event)
  · intro hpref hstage hdist
    have hfinds1 : ∀ req ∈ eventRequests s eventId,
        (s.resources.find? (fun x => x.id == req.resourceId)).isSome = true := by
      rw [← heid]
      exact hfinds
    obtain ⟨ar, s2, halloc, hsucc⟩ := allocateEvent_characterize s eventId event hev hstage hfinds1
    refine ⟨ar, s2, halloc, ?_⟩
    have hcand : ∀ v : Venue, isCandidate s event v ↔
        (v ∈ s.venues ∧ v.isActive = true ∧ v.maintenanceMode = false ∧
          event.participantCount ≤ v.capacity) := by
      intro v
      unfold isCandidate
      rw [hpref]
      simp
    have hdist1 : (eventRequests s eventId).Pairwise
        (fun a b => a.resourceId ≠ b.resourceId) := by
      rw [← heid]
      exact hdist
    have har := hsucc hdist1
    have hr := hiff.trans (and_congr_left (fun _ => checkVenueAvailabilitySuccess_iff s event))
    have hbridge : ((∃ v, isCandidate s event v ∧ venueFree s event v) ∧
        ∀ req ∈ eventRequests s eventId, resourceAvailableFor s event req) ↔
        ((∃ v ∈ s.venues, v.isActive = true ∧ v.maintenanceMode = false ∧
            event.participantCount ≤ v.capacity ∧ venueFree s event v) ∧
          ∀ req ∈ eventRequests s event.id, resourceAvailableFor s event req) := by
      rw [heid]
      constructor
      · rintro ⟨⟨v, hv, hfree⟩, hresq⟩
        obtain ⟨h1, h2, h3, h4⟩ := (hcand v).mp hv
        exact ⟨⟨v, h1, h2, h3, h4, hfree⟩, hresq⟩
      · rintro ⟨⟨v, h1, h2, h3, h4, hfree⟩, hresq⟩
        exact ⟨⟨v, (hcand v).mpr ⟨h1, h2, h3, h4⟩, hfree⟩, hresq⟩
    have hfinal : (ar.success = true) ↔ (r.success = true) := har.trans (hbridge.trans hr.symm)
    cases har2 : ar.success with
    | false =>
      cases hrv : r.success with
      | false => rfl
      | true =>
        rw [har2, hrv] at hfinal
        exact absurd (hfinal.mpr rfl) (by simp)
    | true =>
      cases hrv : r.success with
      | false =>
        rw [har2, hrv] at hfinal
        exact absurd (hfinal.mp rfl) (by simp)
      | true => rfl

/-- Witness for C7 (amended): an event with no type preference, no resource
requests, at HeadApproved, with one free adequate venue — the feasibility
check returns success on the unchanged store and agrees with allocateEvent. -/
theorem c7_feasibility_characterization_witness :
    ∃ r, checkAllocationFeasibility c7w_state "e7w" = .ok (r, c7w_state) ∧
      (r.success = true ↔
        ((∃ v ∈ c7w_state.venues, v.isActive = true ∧ v.maintenanceMode = false ∧
            c7w_event.participantCount ≤ v.capacity ∧ venueFree c7w_state c7w_event v) ∧
          ∀ req ∈ eventRequests c7w_state c7w_event.id,
            resourceAvailableFor c7w_state c7w_event req)) ∧
      (c7w_event.venueTypePreference = none →
        c7w_event.approvalStage = ApprovalStage.HEAD_APPROVED →
        (eventRequests c7w_state c7w_event.id).Pairwise
          (fun a b => a.resourceId ≠ b.resourceId) →
        ∃ ar s2, allocateEvent c7w_state "e7w" = .ok (ar, s2) ∧ ar.success = r.success) :=
  c7_feasibility_characterization c7w_state "e7w" c7w_event (by decide) (by decide)

/-- C8: when the approver role and scope do not match the current stage per
the fixed table (Submitted needs a department head of the same department,
HodApproved a dean of the same school, DeanApproved the institutional head),
processApproval returns the structured permission failure, not an exception,
and the store is unchanged. -/
theorem c8_permission_denied (s : DBState) (ctx : ApprovalContext) (event : Event)
    (approver : User)
    (hev : s.events.find? (fun ev => ev.id == ctx.eventId) = some event)
    (hap : s.users.find? (fun u => u.id == ctx.approverId) = some approver)
    (hmismatch : ¬ ((event.approvalStage = ApprovalStage.SUBMITTED ∧
        approver.role = Role.HOD ∧ approver.departmentId = some event.departmentId) ∨
      (event.approvalStage = ApprovalStage.HOD_APPROVED ∧ approver.role = Role.DEAN ∧
        approver.schoolId = some event.schoolId) ∨
      (event.approvalStage = ApprovalStage.DEAN_APPROVED ∧
        approver.role = Role.INSTITUTIONAL_HEAD))) :
    processApproval s ctx =
      .ok ({ success := false, nextStage := none,
             error := some "Insufficient permissions to approve this event" }, s) := by
  apply processApproval_denied s ctx event approver hev hap
  cases hval : validateApprovalPermission approver.role event.approvalStage approver.schoolId
    approver.departmentId event.schoolId event.departmentId with
  | false => rfl
  | true =>
    exact absurd ((validateApprovalPermission_eq_true_iff approver.role event.approvalStage
      approver.schoolId approver.departmentId event.schoolId event.departmentId).mp hval)
      hmismatch

/-- Witness for C8 at Scenario D: a Dean acting on an event still at
Submitted stage is denied with the structured failure and no mutation. -/
theorem c8_permission_denied_witness :
    processApproval c8_state c8_ctx =
      .ok ({ success := false, nextStage := none,
             error := some "Insufficient permissions to approve this event" }, c8_state) :=
  c8_permission_denied c8_state c8_ctx c8_event
    { id := "dean1", role := Role.DEAN, schoolId := some "s1",
      departmentId := none, isActive := true }
    (by decide) (by decide) (by decide)

/-- C10: for every approver of any role and scope, an event whose stage is
Draft, HeadApproved, Approved, Rejected or ModificationRequired yields the
permission failure from processApproval: no human actor can act outside the
three awaiting stages. -/
theorem c10_only_awaiting_stages_actionable (s : DBState) (ctx : ApprovalContext)
    (event : Event) (approver : User)
    (hev : s.events.find? (fun ev => ev.id == ctx.eventId) = some event)
    (hap : s.users.find? (fun u => u.id == ctx.approverId) = some approver)
    (hstage : event.approvalStage = ApprovalStage.DRAFT ∨
      event.approvalStage = ApprovalStage.HEAD_APPROVED ∨
      event.approvalStage = ApprovalStage.APPROVED ∨
      event.approvalStage = ApprovalStage.REJECTED ∨
      event.approvalStage = ApprovalStage.MODIFICATION_REQUIRED) :
    processApproval s ctx =
      .ok ({ success := false, nextStage := none,
             error := some "Insufficient permissions to approve this event" }, s) := by
  apply processApproval_denied s ctx event approver hev hap
  rcases hstage with h | h | h | h | h <;> rw [h] <;> rfl

/-- Witness for C10: the Institutional Head itself, acting on an event
parked at HeadApproved, is denied — the stage from which allocation would
be triggered is unreachable for every human actor. -/
theorem c10_only_awaiting_stages_actionable_witness :
    processApproval c10_state c10_ctx =
      .ok ({ success := false, nextStage := none,
             error := some "Insufficient permissions to approve this event" }, c10_state) :=
  c10_only_awaiting_stages_actionable c10_state c10_ctx c10_event
    { id := "h10", role := Role.INSTITUTIONAL_HEAD, schoolId := none,
      departmentId := none, isActive := true }
    (by decide) (by decide) (Or.inr (Or.inl rfl))

end IERMS
